import Mathlib

/-!
Shallow embedding of the connectivity core of the ESP32Cam firmware:
the WiFi station-link manager (`wifi.c`) and the MQTT messaging client
(`components/com_mqtt/mqtt.c`).

Strings and byte buffers are modelled as `List Nat` (byte values); C's
truncating copies become `List.take`/`List.drop`; `strlen` on a
zero-initialised buffer becomes `takeWhile (· ≠ 0)`.  ESP-IDF
primitives keep their standard semantics: `ESP_ERROR_CHECK` aborts the
process on a non-`ESP_OK` argument, `xEventGroupWaitBits` with
`portMAX_DELAY` suspends until one of the requested bits is set, a
FreeRTOS queue of depth `N` holds at most `N` entries and `xQueueSend`
with timeout 0 fails iff the queue is full.
-/

/-- ESP-IDF error results as returned by the two init functions:
`ESP_OK` or `ESP_FAIL`. -/
inductive EspErr where
  | ok
  | fail
deriving DecidableEq, Repr

namespace Wifi

/-- `WIFI_MAXIMUM_RETRY` from wifi.c: max number of reconnect retries. -/
def WIFI_MAXIMUM_RETRY : Nat := 10

/-- The events `event_handler` in wifi.c dispatches on:
`WIFI_EVENT_STA_START`, `WIFI_EVENT_STA_DISCONNECTED`,
`IP_EVENT_STA_GOT_IP`. -/
inductive WifiEvent where
  | staStart
  | staDisconnected
  | gotIp
deriving DecidableEq, Repr

/-- The mutable state touched by wifi.c: the retry counter
`s_retry_num`, the two event-group bits `WIFI_CONNECTED_BIT` and
`WIFI_FAIL_BIT`, the `isConnected` flag, and (for the retry claim) a
count of `esp_wifi_connect()` calls issued. -/
structure WifiState where
  retryNum : Nat
  connectedBit : Bool
  failBit : Bool
  isConnected : Bool
  connectRequests : Nat
deriving DecidableEq, Repr

/-- State before any event: `s_retry_num = 0`, no bits set,
`isConnected = false`. -/
def initWifiState : WifiState :=
  { retryNum := 0, connectedBit := false, failBit := false,
    isConnected := false, connectRequests := 0 }

/-- `event_handler` from wifi.c (lines 50-71), one event step.
On `STA_START`: issue a connect, clear `isConnected`.
On `STA_DISCONNECTED`: if `s_retry_num < WIFI_MAXIMUM_RETRY`, issue a
connect and increment the counter; otherwise set `WIFI_FAIL_BIT`;
either way clear `isConnected`.
On `GOT_IP`: reset the counter to 0, set `WIFI_CONNECTED_BIT`, set
`isConnected`. -/
def event_handler (s : WifiState) : WifiEvent → WifiState
  | .staStart =>
      { s with connectRequests := s.connectRequests + 1, isConnected := false }
  | .staDisconnected =>
      if s.retryNum < WIFI_MAXIMUM_RETRY then
        { s with connectRequests := s.connectRequests + 1,
                 retryNum := s.retryNum + 1, isConnected := false }
      else
        { s with failBit := true, isConnected := false }
  | .gotIp =>
      { s with retryNum := 0, connectedBit := true, isConnected := true }

/-- Run a sequence of driver events through `event_handler`. -/
def runEvents (s : WifiState) (events : List WifiEvent) : WifiState :=
  events.foldl event_handler s

/-- `WiFi_Init` from wifi.c (lines 75-157).  `openOk`, `ssidOk`,
`passOk` model the results of `nvs_open` / `nvs_get_str` for
`WIFI_SSID` / `WIFI_PASS`; a failed read returns `ESP_FAIL` at once.
Otherwise the driver is started and the call suspends on
`xEventGroupWaitBits` with `portMAX_DELAY` until `WIFI_CONNECTED_BIT`
or `WIFI_FAIL_BIT` is set by `event_handler`; `events` is the run of
driver events.  `none` models the call never returning (neither bit
ever set).  After the wait, the function branches on the bits only to
log and to set `isConnected`, and then returns `ESP_OK`
unconditionally (line 156). -/
def WiFi_Init (openOk ssidOk passOk : Bool) (events : List WifiEvent) :
    Option (EspErr × WifiState) :=
  if !openOk then some (.fail, initWifiState)
  else if !ssidOk then some (.fail, initWifiState)
  else if !passOk then some (.fail, initWifiState)
  else
    let s := runEvents initWifiState events
    if s.connectedBit then some (.ok, { s with isConnected := true })
    else if s.failBit then some (.ok, { s with isConnected := false })
    else none

end Wifi

namespace Mqtt

/-- `MAX_TOPIC_LEN` from mqtt.h: max length of a full topic (also the
size of the stack buffers `cBuffer` and `FullTopic`). -/
def MAX_TOPIC_LEN : Nat := 250

/-- `MAX_BASE_LENGTH` from mqtt.h: size of the `BaseTopic` buffer. -/
def MAX_BASE_LENGTH : Nat := 128

/-- `MAX_PAYLOAD` from mqtt.h: size of the `Payload` field. -/
def MAX_PAYLOAD : Nat := 128

/-- `MAX_RXMSG` from mqtt.c: depth of the receive queue. -/
def MAX_RXMSG : Nat := 10

/-- Bytes of a literal C string. -/
def strBytes (s : String) : List Nat := s.toList.map Char.toNat

/-- `MQTT_ID` from mqtt.c: the device-class prefix of the base topic. -/
def MQTT_ID : List Nat := strBytes "ESP32CAM"

/-- `strlen` on a zero-initialised buffer whose written bytes are `l`:
the number of bytes before the first NUL. -/
def strlen_of (l : List Nat) : Nat := (l.takeWhile (· ≠ 0)).length

/-- One lowercase hex digit as `%x` renders it (byte value). -/
def hexDigit (n : Nat) : Nat := if n < 10 then 48 + n else 87 + n

/-- A byte rendered by `%02x`: two lowercase hex digits. -/
def byteHex (b : Nat) : List Nat := [hexDigit (b / 16 % 16), hexDigit (b % 16)]

/-- The base topic written by `MQTT_Init` (mqtt.c lines 161-163):
`snprintf(BaseTopic, MAX_BASE_LENGTH, "%s_%02x%02x%02x%02x%02x%02x",
MQTT_ID, Mac[0..5])` — prefix, underscore (byte 95), six MAC bytes in
lowercase hex, truncated by snprintf to `MAX_BASE_LENGTH - 1` chars. -/
def mkBaseTopic (mac : List Nat) : List Nat :=
  (MQTT_ID ++ [95] ++ mac.flatMap byteHex).take (MAX_BASE_LENGTH - 1)

/-- `MQTT_RXMessage` from mqtt.h: a subtopic of capacity
`MAX_TOPIC_LEN - MAX_BASE_LENGTH` = 122 bytes and a payload of
capacity `MAX_PAYLOAD` = 128 bytes (only the written bytes are kept;
the C struct is zeroed first). -/
structure MQTT_RXMessage where
  SubTopic : List Nat
  Payload : List Nat
deriving DecidableEq, Repr

/-- The mutable state of mqtt.c: `isConnected`, `BaseTopic`, the
receive queue `xRxQueue` (front = oldest), and a log of every
`(topic, payload)` handed to `esp_mqtt_client_publish`. -/
structure MqttState where
  isConnected : Bool
  BaseTopic : List Nat
  xRxQueue : List MQTT_RXMessage
  published : List (List Nat × List Nat)
deriving DecidableEq, Repr

/-- The MQTT events `mqtt_event_handler` dispatches on. -/
inductive MqttEvent where
  | connected
  | disconnected
  | subscribed
  | unsubscribed
  | publishedEvt
  | beforeConnect
  | errorEvt
  | data (topic : List Nat) (payload : List Nat)
deriving DecidableEq, Repr

/-- The queue after the full-check at the top of the `MQTT_EVENT_DATA`
case (mqtt.c lines 92-95): if `uxQueueSpacesAvailable` is 0 the oldest
entry is received (and discarded) to make room. -/
def queueAfterEvict (q : List MQTT_RXMessage) : List MQTT_RXMessage :=
  if MAX_RXMSG ≤ q.length then q.tail else q

/-- The `MQTT_RXMessage` built in the `MQTT_EVENT_DATA` case
(mqtt.c lines 100-109): `cBuffer` receives the
`topic_len - BaseTopic_len - 1` bytes after `BaseTopic` plus the
separator; `SubTopic` receives `MIN(MAX_TOPIC_LEN - MAX_BASE_LENGTH,
strlen(cBuffer))` of them; `Payload` receives
`MIN(data_len, MAX_PAYLOAD)` bytes of the payload. -/
def mkMsg (base topic payload : List Nat) : MQTT_RXMessage :=
  let cBuffer := topic.drop (base.length + 1)
  { SubTopic := cBuffer.take (min (MAX_TOPIC_LEN - MAX_BASE_LENGTH) (strlen_of cBuffer)),
    Payload := payload.take (min payload.length MAX_PAYLOAD) }

/-- The length argument of the unbounded copy
`memcpy(&cBuffer[0], event->topic + BaseTopic_len + 1,
event->topic_len - BaseTopic_len - 1)` (mqtt.c lines 102-103);
`cBuffer` is a `MAX_TOPIC_LEN`-byte stack array. -/
def cBuffer_bytes_written (baseLen topicLen : Nat) : Nat :=
  topicLen - baseLen - 1

/-- The number of bytes `memcpy` writes into `RxMsg.SubTopic`
(mqtt.c lines 107-108). -/
def subTopic_bytes_written (base topic : List Nat) : Nat :=
  min (MAX_TOPIC_LEN - MAX_BASE_LENGTH) (strlen_of (topic.drop (base.length + 1)))

/-- The number of bytes `memcpy` writes into `RxMsg.Payload`
(mqtt.c line 109). -/
def payload_bytes_written (dataLen : Nat) : Nat := min dataLen MAX_PAYLOAD

/-- `mqtt_event_handler` from mqtt.c (lines 58-132), one event step.
`CONNECTED`/`DISCONNECTED` set/clear `isConnected`; `SUBSCRIBED`
publishes the literal `"data"` on the literal topic `"/topic/qos0"`
(line 76); `DATA` evicts the oldest queue entry if the queue is full,
then — if `BaseTopic` is nonempty and strictly shorter than the
received topic — extracts the subtopic, truncates subtopic and payload
to their capacities and enqueues (`xQueueSend` with timeout 0 fails
only if the queue is still full, in which case the message is logged
and dropped); otherwise the message is logged and dropped. -/
def mqtt_event_handler (s : MqttState) : MqttEvent → MqttState
  | .connected => { s with isConnected := true }
  | .disconnected => { s with isConnected := false }
  | .subscribed =>
      { s with published := s.published ++ [(strBytes "/topic/qos0", strBytes "data")] }
  | .unsubscribed => s
  | .publishedEvt => s
  | .beforeConnect => s
  | .errorEvt => s
  | .data topic payload =>
      let q1 := queueAfterEvict s.xRxQueue
      if 0 < s.BaseTopic.length ∧ s.BaseTopic.length < topic.length then
        if q1.length < MAX_RXMSG then
          { s with xRxQueue := q1 ++ [mkMsg s.BaseTopic topic payload] }
        else
          { s with xRxQueue := q1 }
      else
        { s with xRxQueue := q1 }

/-- The full topic built by `MQTT_Transmit` / `MQTT_Subscribe` /
`MQTT_Unsubscribe`: `snprintf(FullTopic, MAX_TOPIC_LEN, "%s/%s",
BaseTopic, SubTopic)` — base, slash (byte 47), subtopic, truncated by
snprintf to `MAX_TOPIC_LEN - 1` chars. -/
def prefix_namespace (base subTopic : List Nat) : List Nat :=
  (base ++ [47] ++ subTopic).take (MAX_TOPIC_LEN - 1)

/-- The subtopic the `MQTT_EVENT_DATA` case extracts from a received
full topic, `none` when the extraction guard fails and the message is
dropped (mqtt.c lines 97-120). -/
def strip_namespace (base full : List Nat) : Option (List Nat) :=
  if 0 < base.length ∧ base.length < full.length then
    let cBuffer := full.drop (base.length + 1)
    some (cBuffer.take (min (MAX_TOPIC_LEN - MAX_BASE_LENGTH) (strlen_of cBuffer)))
  else none

/-- `MQTT_Transmit` from mqtt.c (lines 175-194).  `pubResult` models
the message id `esp_mqtt_client_publish` returns.  Not connected:
return `ESP_FAIL` without touching the client.  Otherwise publish on
`BaseTopic/SubTopic` (recorded in `published`) and return `ESP_FAIL`
iff the id is negative. -/
def MQTT_Transmit (s : MqttState) (pubResult : Int)
    (subTopic payload : List Nat) : EspErr × MqttState :=
  if !s.isConnected then (.fail, s)
  else
    let s' := { s with published :=
      s.published ++ [(prefix_namespace s.BaseTopic subTopic, payload)] }
    if pubResult < 0 then (.fail, s') else (.ok, s')

/-- Outcome of `MQTT_Init`: either the function returns a result and a
state, or `ESP_ERROR_CHECK` aborts the process. -/
inductive InitOutcome where
  | returned (e : EspErr) (s : MqttState)
  | aborted
deriving DecidableEq, Repr

/-- `MQTT_Init` from mqtt.c (lines 136-173).  `openRes`, `getRes`,
`macRes` model `nvs_open`, `nvs_get_str(handle, "MQTT_URL", ...)` and
`esp_efuse_mac_get_default`; each is passed to `ESP_ERROR_CHECK`,
which aborts the process on a non-`ESP_OK` value (lines 145, 147,
161).  On success the client is started, `BaseTopic` is derived from
the MAC, the queue is created (a creation failure is only logged), and
the function returns `ESP_OK`. -/
def MQTT_Init (openRes getRes macRes : EspErr) (mac : List Nat) : InitOutcome :=
  if openRes ≠ .ok then .aborted
  else if getRes ≠ .ok then .aborted
  else if macRes ≠ .ok then .aborted
  else .returned .ok
    { isConnected := false, BaseTopic := mkBaseTopic mac,
      xRxQueue := [], published := [] }

/-- Run a list of `(topic, payload)` data events through
`mqtt_event_handler`. -/
def runData (s : MqttState) (ms : List (List Nat × List Nat)) : MqttState :=
  ms.foldl (fun st m => mqtt_event_handler st (.data m.1 m.2)) s

/-- The MAC of the spec's end-to-end scenario, `AA:BB:CC:11:22:33`. -/
def macAabbcc : List Nat := [170, 187, 204, 17, 34, 51]

/-- The base topic for `macAabbcc` — `ESP32CAM_aabbcc112233`. -/
def baseW : List Nat := mkBaseTopic macAabbcc

/-- A batch of `MAX_RXMSG + 1` valid inbound messages on subtopic `A`
with payload byte `B`, used as a concrete queue-overflow run. -/
def msW : List (List Nat × List Nat) :=
  List.replicate (MAX_RXMSG + 1) (baseW ++ [47, 65], [66])

end Mqtt

/-! ## Theorems -/

/-- Claim C1, counterexample: in the run of 11 consecutive disconnect
events the fail outcome (`WIFI_FAIL_BIT`) is signalled and the
connected bit is not, yet `WiFi_Init` returns `ESP_OK` — the call DOES
return success, contradicting the claim. -/
theorem c1_counterexample :
    (Wifi.runEvents Wifi.initWifiState
        (List.replicate 11 .staDisconnected)).failBit = true ∧
    (Wifi.runEvents Wifi.initWifiState
        (List.replicate 11 .staDisconnected)).connectedBit = false ∧
    (Wifi.WiFi_Init true true true
        (List.replicate 11 .staDisconnected)).map Prod.fst = some EspErr.ok := by
  decide

/-- Claim C1 (amended): whenever `WiFi_Init` returns, its result is
`ESP_OK` iff all three credential reads succeeded — the connected/fail
outcome of the event run does not affect the returned code (the fail
outcome is surfaced only through `isConnected` and the log), and a
non-success result is returned exactly on a credential-read failure. -/
theorem c1_init_return (openOk ssidOk passOk : Bool)
    (events : List Wifi.WifiEvent) (r : EspErr) (st : Wifi.WifiState)
    (h : Wifi.WiFi_Init openOk ssidOk passOk events = some (r, st)) :
    r = EspErr.ok ↔ (openOk = true ∧ ssidOk = true ∧ passOk = true) := by
  cases openOk <;> cases ssidOk <;> cases passOk <;>
    simp [Wifi.WiFi_Init] at h ⊢ <;>
    first
    | (obtain ⟨h1, _⟩ := h; simp [← h1])
    | (split at h <;> simp_all)

/-- Witness for `c1_init_return` at a run ending in the connected
event. -/
theorem c1_init_return_witness :
    EspErr.ok = EspErr.ok ↔ (true = true ∧ true = true ∧ true = true) :=
  c1_init_return true true true [Wifi.WifiEvent.gotIp] EspErr.ok
    { retryNum := 0, connectedBit := true, failBit := false,
      isConnected := true, connectRequests := 0 } (by decide)

/-- Claim C2, counterexample: after exactly 10 consecutive disconnect
events the fail bit is NOT set (the counter has only just reached the
maximum) and `WiFi_Init` does not even return, let alone return
`LinkFailed`; the fail outcome needs an 11th disconnect. -/
theorem c2_counterexample :
    (Wifi.runEvents Wifi.initWifiState
        (List.replicate 10 .staDisconnected)).failBit = false ∧
    Wifi.WiFi_Init true true true (List.replicate 10 .staDisconnected) = none := by
  decide

/-- Claim C2 (amended): for every `n ≤ WIFI_MAXIMUM_RETRY`, a run of
`n` consecutive disconnect events increments the retry counter and
issues a reconnect on each event and signals no outcome bit; the fail
outcome is signalled on the `WIFI_MAXIMUM_RETRY + 1`-th (11th)
consecutive disconnect. -/
theorem c2_retry_budget (n : Nat) (h : n ≤ Wifi.WIFI_MAXIMUM_RETRY) :
    Wifi.runEvents Wifi.initWifiState (List.replicate n .staDisconnected) =
      { retryNum := n, connectedBit := false, failBit := false,
        isConnected := false, connectRequests := n } ∧
    (Wifi.runEvents Wifi.initWifiState
        (List.replicate (Wifi.WIFI_MAXIMUM_RETRY + 1) .staDisconnected)).failBit
      = true := by
  have h10 : n ≤ 10 := h
  constructor
  · interval_cases n <;> decide
  · decide

/-- Witness for `c2_retry_budget` at the full budget `n = 10`. -/
theorem c2_retry_budget_witness :
    (10 ≤ Wifi.WIFI_MAXIMUM_RETRY) ∧
    (Wifi.runEvents Wifi.initWifiState (List.replicate 10 .staDisconnected) =
      { retryNum := 10, connectedBit := false, failBit := false,
        isConnected := false, connectRequests := 10 } ∧
    (Wifi.runEvents Wifi.initWifiState
        (List.replicate (Wifi.WIFI_MAXIMUM_RETRY + 1) .staDisconnected)).failBit
      = true) :=
  ⟨by decide, c2_retry_budget 10 (by decide)⟩

/-- Claim C4: a `MQTT_Transmit` call made while `isConnected` is false
returns `ESP_FAIL` and leaves the whole state unchanged — in
particular the transport publish is not invoked (the publish log is
unchanged) and the receive queue is untouched. -/
theorem c4_transmit_not_connected (s : Mqtt.MqttState) (pubResult : Int)
    (subTopic payload : List Nat) (h : s.isConnected = false) :
    Mqtt.MQTT_Transmit s pubResult subTopic payload = (EspErr.fail, s) := by
  simp [Mqtt.MQTT_Transmit, h]

/-- Witness for `c4_transmit_not_connected` on the freshly initialised
state. -/
theorem c4_transmit_not_connected_witness :
    ({ isConnected := false, BaseTopic := Mqtt.baseW, xRxQueue := [],
       published := [] } : Mqtt.MqttState).isConnected = false ∧
    Mqtt.MQTT_Transmit
      { isConnected := false, BaseTopic := Mqtt.baseW, xRxQueue := [],
        published := [] } 1 [65] [66] =
      (EspErr.fail,
       { isConnected := false, BaseTopic := Mqtt.baseW, xRxQueue := [],
         published := [] }) :=
  ⟨rfl, c4_transmit_not_connected _ 1 [65] [66] rfl⟩

/-- Claim C8, counterexample: when the `MQTT_URL` read from NVS fails,
`MQTT_Init` does not return a `ConfigurationError` to its caller — the
failed result is fed to `ESP_ERROR_CHECK`, which aborts the process. -/
theorem c8_counterexample :
    Mqtt.MQTT_Init .ok .fail .ok Mqtt.macAabbcc = Mqtt.InitOutcome.aborted := by
  decide

/-- Claim C8 (amended): `MQTT_Init` aborts the process (via
`ESP_ERROR_CHECK`) whenever the broker-URL read fails, and otherwise
returns `ESP_OK` with the initial client state — it never returns an
error code for a missing/unreadable broker URL. -/
theorem c8_init_aborts (getRes : EspErr) (mac : List Nat) :
    Mqtt.MQTT_Init .ok getRes .ok mac =
      (if getRes = .ok then
        Mqtt.InitOutcome.returned .ok
          { isConnected := false, BaseTopic := Mqtt.mkBaseTopic mac,
            xRxQueue := [], published := [] }
      else Mqtt.InitOutcome.aborted) := by
  cases getRes <;> simp [Mqtt.MQTT_Init]

/-- Claim C10: when a data event arrives with the queue full
(`MAX_RXMSG` entries) and the topic fails the extraction guard, the
handler still removes the oldest entry first, so the post-state queue
is the tail of the pre-state queue with nothing inserted, and nothing
else in the state changes. -/
theorem c10_evict_before_validation (s : Mqtt.MqttState)
    (topic payload : List Nat)
    (hfull : s.xRxQueue.length = Mqtt.MAX_RXMSG)
    (hbad : ¬(0 < s.BaseTopic.length ∧ s.BaseTopic.length < topic.length)) :
    Mqtt.mqtt_event_handler s (.data topic payload) =
      { s with xRxQueue := s.xRxQueue.tail } := by
  simp [Mqtt.mqtt_event_handler, Mqtt.queueAfterEvict, hbad, hfull]

/-- Witness for `c10_evict_before_validation` on a full queue of ten
messages and a topic shorter than the base topic. -/
theorem c10_evict_before_validation_witness :
    (({ isConnected := true, BaseTopic := Mqtt.baseW,
        xRxQueue := List.replicate 10 ⟨[65], [66]⟩,
        published := [] } : Mqtt.MqttState).xRxQueue.length = Mqtt.MAX_RXMSG ∧
     ¬(0 < Mqtt.baseW.length ∧ Mqtt.baseW.length < ([65] : List Nat).length)) ∧
    Mqtt.mqtt_event_handler
      { isConnected := true, BaseTopic := Mqtt.baseW,
        xRxQueue := List.replicate 10 ⟨[65], [66]⟩, published := [] }
      (.data [65] [66]) =
      { isConnected := true, BaseTopic := Mqtt.baseW,
        xRxQueue := (List.replicate 10 (⟨[65], [66]⟩ : Mqtt.MQTT_RXMessage)).tail,
        published := [] } :=
  ⟨⟨by decide, by decide⟩,
   c10_evict_before_validation _ [65] [66] (by decide) (by decide)⟩

/-- Claim C5, counterexample: a topic consisting of exactly the base
topic followed by the separator (length = namespace length + 1, NOT
strictly longer than namespace plus separator) is not dropped — the
handler enqueues a message with an empty relative topic. -/
theorem c5_counterexample :
    (Mqtt.baseW ++ [47]).length = Mqtt.baseW.length + 1 ∧
    (Mqtt.mqtt_event_handler
      { isConnected := true, BaseTopic := Mqtt.baseW, xRxQueue := [],
        published := [] }
      (.data (Mqtt.baseW ++ [47]) [65])).xRxQueue =
      [{ SubTopic := [], Payload := [65] }] := by
  decide

/-- Claim C5 (amended): a data event is enqueued iff the base topic is
nonempty and the received topic is strictly longer than the base topic
alone (length ≥ namespace length + 1) — a topic equal to namespace
plus separator IS enqueued (with empty subtopic); topics of length at
most the namespace length are logged and dropped (though a full queue
still loses its oldest entry). -/
theorem c5_enqueue_condition (s : Mqtt.MqttState) (topic payload : List Nat)
    (hinv : s.xRxQueue.length ≤ Mqtt.MAX_RXMSG) :
    (Mqtt.mqtt_event_handler s (.data topic payload)).xRxQueue =
      (if 0 < s.BaseTopic.length ∧ s.BaseTopic.length < topic.length then
        Mqtt.queueAfterEvict s.xRxQueue ++ [Mqtt.mkMsg s.BaseTopic topic payload]
      else Mqtt.queueAfterEvict s.xRxQueue) := by
  have hq1 : (Mqtt.queueAfterEvict s.xRxQueue).length < Mqtt.MAX_RXMSG := by
    unfold Mqtt.queueAfterEvict
    split
    · have := List.length_tail s.xRxQueue
      simp [Mqtt.MAX_RXMSG] at *
      omega
    · simp [Mqtt.MAX_RXMSG] at *
      omega
  by_cases hc : 0 < s.BaseTopic.length ∧ s.BaseTopic.length < topic.length
  · simp [Mqtt.mqtt_event_handler, hc, hq1]
  · simp [Mqtt.mqtt_event_handler, hc]

/-- Witness for `c5_enqueue_condition`: an empty queue with a valid
topic enqueues the extracted message. -/
theorem c5_enqueue_condition_witness :
    (({ isConnected := true, BaseTopic := Mqtt.baseW, xRxQueue := [],
        published := [] } : Mqtt.MqttState).xRxQueue.length ≤ Mqtt.MAX_RXMSG) ∧
    (Mqtt.mqtt_event_handler
      { isConnected := true, BaseTopic := Mqtt.baseW, xRxQueue := [],
        published := [] }
      (.data (Mqtt.baseW ++ [47, 65]) [66])).xRxQueue =
      (if 0 < Mqtt.baseW.length ∧ Mqtt.baseW.length < (Mqtt.baseW ++ [47, 65]).length then
        Mqtt.queueAfterEvict [] ++ [Mqtt.mkMsg Mqtt.baseW (Mqtt.baseW ++ [47, 65]) [66]]
      else Mqtt.queueAfterEvict []) :=
  ⟨by decide, c5_enqueue_condition _ (Mqtt.baseW ++ [47, 65]) [66] (by decide)⟩

/-- Claim C7: the subtopic and payload copies are indeed bounded by
their buffer capacities (122 and 128 bytes), but the intermediate copy
into the 250-byte stack buffer `cBuffer` is NOT bounded: with the
21-byte base topic of the reference device, a received topic of length
300 passes the extraction guard and the handler memcpys 278 bytes into
`cBuffer` — 28 bytes past its end.  The claim that the handler "stays
within every intermediate buffer" is right about the intent and the
code is wrong. -/
theorem c7_cbuffer_overflow :
    (∀ base topic : List Nat,
      Mqtt.subTopic_bytes_written base topic ≤
        Mqtt.MAX_TOPIC_LEN - Mqtt.MAX_BASE_LENGTH) ∧
    (∀ dataLen : Nat, Mqtt.payload_bytes_written dataLen ≤ Mqtt.MAX_PAYLOAD) ∧
    (0 < 21 ∧ 21 < 300) ∧
    Mqtt.cBuffer_bytes_written 21 300 = 278 ∧
    Mqtt.MAX_TOPIC_LEN < Mqtt.cBuffer_bytes_written 21 300 := by
  refine ⟨?_, ?_, by decide, by decide, by decide⟩
  · intro base topic
    exact Nat.min_le_left _ _
  · intro dataLen
    exact Nat.min_le_right _ _

/-- Claim C9, counterexample: handling a `SUBSCRIBED` event publishes
the literal payload `"data"` on the literal topic `"/topic/qos0"`,
which does not lie under the device's topic namespace
`ESP32CAM_aabbcc112233/` — so the client does publish application
traffic outside the per-device namespace. -/
theorem c9_counterexample :
    (Mqtt.mqtt_event_handler
        { isConnected := true, BaseTopic := Mqtt.baseW, xRxQueue := [],
          published := [] } .subscribed).published =
      [(Mqtt.strBytes "/topic/qos0", Mqtt.strBytes "data")] ∧
    ¬∃ r, Mqtt.strBytes "/topic/qos0" = Mqtt.baseW ++ [47] ++ r := by
  refine ⟨rfl, ?_⟩
  rintro ⟨r, h⟩
  rw [show Mqtt.baseW =
      [69, 83, 80, 51, 50, 67, 65, 77, 95, 97, 97, 98, 98, 99, 99, 49, 49,
       50, 50, 51, 51] from by decide,
    show Mqtt.strBytes "/topic/qos0" =
      [47, 116, 111, 112, 105, 99, 47, 113, 111, 115, 48] from by decide] at h
  simp at h

/-- Claim C9 (amended): every publish issued through `MQTT_Transmit`
uses the namespaced topic `BaseTopic ++ "/" ++ SubTopic` (truncated to
the topic budget); the event handler, however, additionally publishes
the fixed message `"data"` on the non-namespaced topic `"/topic/qos0"`
whenever a `SUBSCRIBED` event is handled, and publishes nothing on any
other event. -/
theorem c9_publish_namespaced (s : Mqtt.MqttState) (pubResult : Int)
    (subTopic payload : List Nat) (h : s.isConnected = true) :
    ((Mqtt.MQTT_Transmit s pubResult subTopic payload).2).published =
      s.published ++ [(Mqtt.prefix_namespace s.BaseTopic subTopic, payload)] ∧
    ∀ (t : Mqtt.MqttState) (e : Mqtt.MqttEvent),
      (Mqtt.mqtt_event_handler t e).published = t.published ∨
      (Mqtt.mqtt_event_handler t e).published =
        t.published ++ [(Mqtt.strBytes "/topic/qos0", Mqtt.strBytes "data")] := by
  constructor
  · simp only [Mqtt.MQTT_Transmit, h, Bool.not_true, Bool.false_eq_true,
      if_false]
    split <;> rfl
  · intro t e
    cases e <;> simp [Mqtt.mqtt_event_handler]
    split_ifs <;> simp

/-- Witness for `c9_publish_namespaced` on a connected state. -/
theorem c9_publish_namespaced_witness :
    ({ isConnected := true, BaseTopic := Mqtt.baseW, xRxQueue := [],
       published := [] } : Mqtt.MqttState).isConnected = true ∧
    (((Mqtt.MQTT_Transmit
        { isConnected := true, BaseTopic := Mqtt.baseW, xRxQueue := [],
          published := [] } 1 (Mqtt.strBytes "Status") [66]).2).published =
      [] ++ [(Mqtt.prefix_namespace Mqtt.baseW (Mqtt.strBytes "Status"), [66])] ∧
    ∀ (t : Mqtt.MqttState) (e : Mqtt.MqttEvent),
      (Mqtt.mqtt_event_handler t e).published = t.published ∨
      (Mqtt.mqtt_event_handler t e).published =
        t.published ++ [(Mqtt.strBytes "/topic/qos0", Mqtt.strBytes "data")]) :=
  ⟨rfl, c9_publish_namespaced _ 1 (Mqtt.strBytes "Status") [66] rfl⟩

/-- After the eviction step the queue always has room: its length is
strictly below the queue depth whenever the invariant held before. -/
theorem queueAfterEvict_length_lt (q : List Mqtt.MQTT_RXMessage)
    (h : q.length ≤ Mqtt.MAX_RXMSG) :
    (Mqtt.queueAfterEvict q).length < Mqtt.MAX_RXMSG := by
  unfold Mqtt.queueAfterEvict
  split
  · have ht := List.length_tail q
    simp [Mqtt.MAX_RXMSG] at *
    omega
  · simp [Mqtt.MAX_RXMSG] at *
    omega

/-- A data event whose topic passes the extraction guard appends the
extracted message to the (possibly evicted) queue and changes nothing
else. -/
theorem handler_data_valid (s : Mqtt.MqttState) (t p : List Nat)
    (hinv : s.xRxQueue.length ≤ Mqtt.MAX_RXMSG)
    (hv : 0 < s.BaseTopic.length ∧ s.BaseTopic.length < t.length) :
    Mqtt.mqtt_event_handler s (.data t p) =
      { s with xRxQueue := Mqtt.queueAfterEvict s.xRxQueue ++
          [Mqtt.mkMsg s.BaseTopic t p] } := by
  simp [Mqtt.mqtt_event_handler, hv, queueAfterEvict_length_lt _ hinv]

/-- Running a batch of valid data events leaves the last
`MAX_RXMSG`-many of old-queue-plus-new-messages, in order. -/
theorem runData_queue (ms : List (List Nat × List Nat)) (s : Mqtt.MqttState)
    (hinv : s.xRxQueue.length ≤ Mqtt.MAX_RXMSG)
    (hvalid : ∀ m ∈ ms, 0 < s.BaseTopic.length ∧ s.BaseTopic.length < m.1.length) :
    (Mqtt.runData s ms).xRxQueue =
      (s.xRxQueue ++ ms.map (fun m => Mqtt.mkMsg s.BaseTopic m.1 m.2)).drop
        (s.xRxQueue.length + ms.length - Mqtt.MAX_RXMSG) := by
  induction ms generalizing s with
  | nil =>
      have h0 : s.xRxQueue.length - Mqtt.MAX_RXMSG = 0 :=
        Nat.sub_eq_zero_of_le hinv
      simp [Mqtt.runData, h0]
  | cons m ms ih =>
      have hv := hvalid m (List.mem_cons_self m ms)
      have hq1lt := queueAfterEvict_length_lt s.xRxQueue hinv
      have hrun : Mqtt.runData s (m :: ms) =
          Mqtt.runData
            { s with xRxQueue := Mqtt.queueAfterEvict s.xRxQueue ++
                [Mqtt.mkMsg s.BaseTopic m.1 m.2] } ms := by
        simp [Mqtt.runData, handler_data_valid s m.1 m.2 hinv hv]
      rw [hrun]
      rw [ih { s with xRxQueue := Mqtt.queueAfterEvict s.xRxQueue ++
            [Mqtt.mkMsg s.BaseTopic m.1 m.2] }
          (by simp only [List.length_append, List.length_cons, List.length_nil,
                Mqtt.MAX_RXMSG] at *
              omega)
          (fun m' hm' => hvalid m' (List.mem_cons_of_mem m hm'))]
      by_cases hfull : Mqtt.MAX_RXMSG ≤ s.xRxQueue.length
      · have hlen : s.xRxQueue.length = 10 := by
          simp [Mqtt.MAX_RXMSG] at *
          omega
        obtain ⟨a, q', hq⟩ : ∃ a q', s.xRxQueue = a :: q' := by
          cases hcase : s.xRxQueue with
          | nil => rw [hcase] at hlen; simp at hlen
          | cons a q' => exact ⟨a, q', rfl⟩
        have hq'len : q'.length = 9 := by
          rw [hq] at hlen
          simp at hlen
          omega
        have hev : Mqtt.queueAfterEvict s.xRxQueue = q' := by
          rw [Mqtt.queueAfterEvict, if_pos hfull, hq, List.tail_cons]
        rw [hev, hq, List.map_cons]
        have h1 : (q' ++ [Mqtt.mkMsg s.BaseTopic m.1 m.2]).length + ms.length -
            Mqtt.MAX_RXMSG = ms.length := by
          simp [Mqtt.MAX_RXMSG, hq'len]
        have h2 : (a :: q').length + (m :: ms).length - Mqtt.MAX_RXMSG =
            ms.length + 1 := by
          simp [Mqtt.MAX_RXMSG, hq'len]
        rw [h1, h2, List.append_assoc, List.singleton_append,
          List.cons_append, List.drop_succ_cons]
      · have hev : Mqtt.queueAfterEvict s.xRxQueue = s.xRxQueue := by
          rw [Mqtt.queueAfterEvict, if_neg hfull]
        rw [hev, List.map_cons, List.append_assoc, List.singleton_append]
        congr 1
        simp [Mqtt.MAX_RXMSG]
        omega

/-- Claim C3: (a) enqueueing `MAX_RXMSG + 1` = 11 valid data events in
order, starting from an empty queue, leaves exactly the last
`MAX_RXMSG` = 10 extracted messages in the queue, in FIFO order, with
the oldest evicted; (b) the handler never grows the queue beyond
`MAX_RXMSG` on any event (and is a total function — it never blocks). -/
theorem c3_drop_oldest :
    (∀ (conn : Bool) (base : List Nat) (pub : List (List Nat × List Nat))
        (ms : List (List Nat × List Nat)),
      ms.length = Mqtt.MAX_RXMSG + 1 →
      (∀ m ∈ ms, 0 < base.length ∧ base.length < m.1.length) →
      (Mqtt.runData ⟨conn, base, [], pub⟩ ms).xRxQueue =
        (ms.map (fun m => Mqtt.mkMsg base m.1 m.2)).tail) ∧
    (∀ (s : Mqtt.MqttState) (e : Mqtt.MqttEvent),
      s.xRxQueue.length ≤ Mqtt.MAX_RXMSG →
      (Mqtt.mqtt_event_handler s e).xRxQueue.length ≤ Mqtt.MAX_RXMSG) := by
  constructor
  · intro conn base pub ms hlen hvalid
    rw [runData_queue ms ⟨conn, base, [], pub⟩ (by simp [Mqtt.MAX_RXMSG]) hvalid]
    simp [hlen, Mqtt.MAX_RXMSG, List.drop_one]
  · intro s e h
    have hq1 := queueAfterEvict_length_lt s.xRxQueue h
    cases e <;> simp [Mqtt.mqtt_event_handler] <;> try exact h
    split_ifs <;> simp [Mqtt.MAX_RXMSG] at * <;> omega

/-- Witness for `c3_drop_oldest`: eleven identical valid messages on
the reference base topic, and the invariant step on a connect event. -/
theorem c3_drop_oldest_witness :
    ((Mqtt.msW.length = Mqtt.MAX_RXMSG + 1 ∧
      (∀ m ∈ Mqtt.msW, 0 < Mqtt.baseW.length ∧ Mqtt.baseW.length < m.1.length)) ∧
     (Mqtt.runData ⟨true, Mqtt.baseW, [], []⟩ Mqtt.msW).xRxQueue =
       (Mqtt.msW.map (fun m => Mqtt.mkMsg Mqtt.baseW m.1 m.2)).tail) ∧
    ((⟨true, Mqtt.baseW, [], []⟩ : Mqtt.MqttState).xRxQueue.length ≤ Mqtt.MAX_RXMSG ∧
     (Mqtt.mqtt_event_handler ⟨true, Mqtt.baseW, [], []⟩ .connected).xRxQueue.length ≤
       Mqtt.MAX_RXMSG) :=
  ⟨⟨⟨by decide, by decide⟩,
    c3_drop_oldest.1 true Mqtt.baseW [] Mqtt.msW (by decide) (by decide)⟩,
   ⟨by decide, c3_drop_oldest.2 _ .connected (by decide)⟩⟩

/-- On a NUL-free buffer, `strlen` sees every written byte. -/
theorem strlen_of_eq_length (l : List Nat) (h : ∀ b ∈ l, b ≠ 0) :
    Mqtt.strlen_of l = l.length := by
  induction l with
  | nil => rfl
  | cons a l ih =>
      have ha : a ≠ 0 := h a (List.mem_cons_self a l)
      have hl := ih (fun b hb => h b (List.mem_cons_of_mem a hb))
      unfold Mqtt.strlen_of at hl ⊢
      rw [List.takeWhile_cons_of_pos (by simpa using ha), List.length_cons, hl,
        List.length_cons]

/-- Each MAC byte contributes exactly two hex digits. -/
theorem flatMap_byteHex_length (mac : List Nat) :
    (mac.flatMap Mqtt.byteHex).length = 2 * mac.length := by
  induction mac with
  | nil => rfl
  | cons a l ih =>
      simp [Mqtt.byteHex, ih]
      omega

/-- The generated base topic has 21 bytes: 8 prefix bytes, the
underscore and twelve hex digits. -/
theorem mkBaseTopic_length (mac : List Nat) (h : mac.length = 6) :
    (Mqtt.mkBaseTopic mac).length = 21 := by
  have hid : Mqtt.MQTT_ID.length = 8 := by decide
  unfold Mqtt.mkBaseTopic
  rw [List.length_take, List.length_append, List.length_append,
    flatMap_byteHex_length, hid, h, List.length_singleton]
  decide

/-- No byte of the generated base topic is the NUL byte. -/
theorem mkBaseTopic_no_nul (mac : List Nat) :
    ∀ b ∈ Mqtt.mkBaseTopic mac, b ≠ 0 := by
  intro b hb
  unfold Mqtt.mkBaseTopic at hb
  have hb' := List.take_subset _ _ hb
  rw [show Mqtt.MQTT_ID = [69, 83, 80, 51, 50, 67, 65, 77] from by decide]
    at hb'
  simp only [List.append_assoc, List.mem_append, List.mem_cons,
    List.not_mem_nil, or_false] at hb'
  rcases hb' with h | h | h
  · omega
  · omega
  · simp only [List.mem_flatMap, Mqtt.byteHex, List.mem_cons,
      List.not_mem_nil, or_false] at h
    obtain ⟨a, _, ha⟩ := h
    unfold Mqtt.hexDigit at ha
    rcases ha with ha | ha <;> split at ha <;> omega

/-- Claim C6: with the generated 21-byte base topic, a NUL-free
relative topic `T` of at most 122 bytes (which then always fits the
249-byte publish budget) survives the round trip
`strip_namespace (prefix_namespace T) = T`, and a NUL-free relative
topic `U` longer than the 122-byte capacity comes back truncated to
its first 122 bytes, not as an error. -/
theorem c6_topic_roundtrip (mac T U : List Nat)
    (hmac : mac.length = 6)
    (hT0 : ∀ b ∈ T, b ≠ 0) (hTlen : T.length ≤ 122)
    (hU0 : ∀ b ∈ U, b ≠ 0) (hUlen : 122 < U.length) :
    Mqtt.strip_namespace (Mqtt.mkBaseTopic mac)
        (Mqtt.prefix_namespace (Mqtt.mkBaseTopic mac) T) = some T ∧
    Mqtt.strip_namespace (Mqtt.mkBaseTopic mac)
        (Mqtt.prefix_namespace (Mqtt.mkBaseTopic mac) U) = some (U.take 122) := by
  have hB : (Mqtt.mkBaseTopic mac).length = 21 := mkBaseTopic_length mac hmac
  constructor
  · have hlen1 : (Mqtt.mkBaseTopic mac ++ [47] ++ T).length = 22 + T.length := by
      simp [hB]
      omega
    have hfull : Mqtt.prefix_namespace (Mqtt.mkBaseTopic mac) T =
        Mqtt.mkBaseTopic mac ++ [47] ++ T := by
      unfold Mqtt.prefix_namespace
      apply List.take_of_length_le
      rw [hlen1]
      unfold Mqtt.MAX_TOPIC_LEN
      omega
    rw [hfull]
    have hcond : 0 < (Mqtt.mkBaseTopic mac).length ∧
        (Mqtt.mkBaseTopic mac).length <
          (Mqtt.mkBaseTopic mac ++ [47] ++ T).length := by
      rw [hlen1, hB]
      omega
    have hdrop : (Mqtt.mkBaseTopic mac ++ [47] ++ T).drop
        ((Mqtt.mkBaseTopic mac).length + 1) = T := by
      rw [show (Mqtt.mkBaseTopic mac).length + 1 =
          (Mqtt.mkBaseTopic mac ++ [47]).length from by simp]
      exact List.drop_left _ _
    unfold Mqtt.strip_namespace
    rw [if_pos hcond]
    simp only [hdrop, strlen_of_eq_length T hT0]
    rw [show min (Mqtt.MAX_TOPIC_LEN - Mqtt.MAX_BASE_LENGTH) T.length =
        T.length from by
      unfold Mqtt.MAX_TOPIC_LEN Mqtt.MAX_BASE_LENGTH
      omega]
    rw [List.take_length]
  · have hlen2 : (Mqtt.mkBaseTopic mac ++ [47] ++ U).length = 22 + U.length := by
      simp [hB]
      omega
    have hcond : 0 < (Mqtt.mkBaseTopic mac).length ∧
        (Mqtt.mkBaseTopic mac).length <
          (Mqtt.prefix_namespace (Mqtt.mkBaseTopic mac) U).length := by
      unfold Mqtt.prefix_namespace Mqtt.MAX_TOPIC_LEN
      rw [List.length_take, hlen2, hB]
      omega
    have hcb : (Mqtt.prefix_namespace (Mqtt.mkBaseTopic mac) U).drop
        ((Mqtt.mkBaseTopic mac).length + 1) = U.take 227 := by
      unfold Mqtt.prefix_namespace
      rw [List.drop_take]
      rw [show (Mqtt.mkBaseTopic mac).length + 1 =
          (Mqtt.mkBaseTopic mac ++ [47]).length from by simp]
      rw [List.drop_left]
      congr 1
      rw [List.length_append, hB]
      unfold Mqtt.MAX_TOPIC_LEN
      simp
    have hs : Mqtt.strlen_of (U.take 227) = min 227 U.length := by
      rw [strlen_of_eq_length _ (fun b hb => hU0 b (List.take_subset _ _ hb)),
        List.length_take]
    unfold Mqtt.strip_namespace
    rw [if_pos hcond]
    simp only [hcb, hs]
    rw [show min (Mqtt.MAX_TOPIC_LEN - Mqtt.MAX_BASE_LENGTH)
        (min 227 U.length) = 122 from by
      unfold Mqtt.MAX_TOPIC_LEN Mqtt.MAX_BASE_LENGTH
      omega]
    rw [List.take_take]
    norm_num

/-- Witness for `c6_topic_roundtrip`: the scenario MAC, `T = "Status"`
and a 123-byte relative topic `U`. -/
theorem c6_topic_roundtrip_witness :
    ((Mqtt.macAabbcc.length = 6 ∧
      (∀ b ∈ Mqtt.strBytes "Status", b ≠ 0) ∧
      (Mqtt.strBytes "Status").length ≤ 122 ∧
      (∀ b ∈ List.replicate 123 97, b ≠ 0) ∧
      122 < (List.replicate 123 97).length) ∧
     Mqtt.strip_namespace (Mqtt.mkBaseTopic Mqtt.macAabbcc)
        (Mqtt.prefix_namespace (Mqtt.mkBaseTopic Mqtt.macAabbcc)
          (Mqtt.strBytes "Status")) = some (Mqtt.strBytes "Status") ∧
     Mqtt.strip_namespace (Mqtt.mkBaseTopic Mqtt.macAabbcc)
        (Mqtt.prefix_namespace (Mqtt.mkBaseTopic Mqtt.macAabbcc)
          (List.replicate 123 97)) = some ((List.replicate 123 97).take 122)) :=
  ⟨⟨by decide, by decide, by decide, by decide, by decide⟩,
   c6_topic_roundtrip Mqtt.macAabbcc (Mqtt.strBytes "Status")
     (List.replicate 123 97) (by decide) (by decide) (by decide)
     (by decide) (by decide)⟩
